import Mathlib

/-!
Verification of the schema-migration and bootstrap engine of the Flask
to-do-list repository (`migrate.py`, with the duplicated `connect_mysql`
in `main.py`).

The embedding is shallow: the Python functions are translated into
executable Lean functions over explicit state.  Strings are handled at the
character-list level so that every operation reduces in the kernel; the
character-level helpers mirror the Python string methods used by the source
(`str.split(";")`, `str.strip()`, slicing `[:80]`, the `*.sql` glob filter).
Database effects are modelled by an explicit state (`St`): the
`schema_migrations` name list, the `users` rows, the executed-statement log
and the console output.  Exceptions of the driver layer are injected
through an environment (`Env` for the migration run, `DriverEnv`/`ConnEnv`
for `connect_mysql`); Python `raise` that escapes a function is an
`Except.error`.
-/

/-! ## Character-level string helpers (Python string semantics) -/

/-- Python `str.split(";")`: cut at every `';'`, keeping empty pieces. -/
def splitOnSemi : List Char → List (List Char)
  | [] => [[]]
  | c :: rest =>
    let r := splitOnSemi rest
    if c = ';' then [] :: r
    else
      match r with
      | [] => [[c]]
      | g :: gs => (c :: g) :: gs

/-- Python `str.strip()`: drop leading and trailing whitespace. -/
def pyStrip (l : List Char) : List Char :=
  ((l.dropWhile Char.isWhitespace).reverse.dropWhile Char.isWhitespace).reverse

/-- `migrate.py` line 91: `[s.strip() for s in sql.split(";") if s.strip()]`. -/
def splitStatements (sql : String) : List String :=
  (((splitOnSemi sql.data).map pyStrip).filter (fun l => l ≠ [])).map (fun l => String.mk l)

/-- The `root.glob("*.sql")` filter of `load_migrations`: the filename ends
in `.sql`. -/
def endsWithSql (s : String) : Bool :=
  match s.data.reverse with
  | 'l' :: 'q' :: 's' :: '.' :: _ => true
  | _ => false

/-- Python string comparison (used by `sorted` on the migration paths):
lexicographic on code points. -/
def lexLe : List Char → List Char → Bool
  | [], _ => true
  | _ :: _, [] => false
  | a :: as, b :: bs =>
    if a.val < b.val then true
    else if b.val < a.val then false
    else lexLe as bs

/-- Filename order of `sorted` in `load_migrations`. -/
def nameLe (a b : String) : Bool := lexLe a.data b.data

/-- Python `int(s)` succeeds (restricted to plain decimal digit strings; the
source feeds it `os.environ.get("MYSQL_PORT", "3306")`). -/
def intParseOk (s : String) : Bool := s.data ≠ [] && s.data.all Char.isDigit

/-! ## Data model -/

/-- One migration unit: a filename and the raw SQL text of the file
(`path.name` and `path.read_text()` in the source). -/
structure MigrationFile where
  name : String
  text : String
deriving DecidableEq, Repr

/-- A row of the `users` table, as far as the bootstrap seeder touches it.
`role = none` stands for a row inserted without the role column. -/
structure AdminRow where
  username : String
  email : String
  password_hash : String
  role : Option String
deriving DecidableEq, Repr

/-- The observable state threaded through a migration run:
* `recorded` — the `name` column of `schema_migrations`, in insertion order;
* `users` — the `users` rows the seeder can see;
* `trackingTable` — whether `CREATE TABLE IF NOT EXISTS schema_migrations`
  has been issued;
* `output` — every line printed so far;
* `attempted` — every SQL statement passed to `cur.execute` by
  `apply_migration`, in order;
* `applied` — the names of the units `apply_migration` recorded this run;
* `acquired`/`closed` — how many times the run obtained a connection from
  `connect_mysql` and how many times it called `close()` on it
  (`migrate.main` contains no such call). -/
structure St where
  recorded : List String
  users : List AdminRow
  trackingTable : Bool
  output : List String
  attempted : List String
  applied : List String
  acquired : Nat
  closed : Nat
deriving DecidableEq, Repr

/-- The failure environment of one migration run: which driver-level calls
raise.  `stmtFails s` — `cur.execute(s)` raises inside `apply_migration`;
`lookupFails n` — the `SELECT` in `already_applied` raises for unit `n`;
the `admin*`/`insert*` fields drive the seeder block of `main`;
`errText`/`adminErr` are the rendered exception messages; `adminHash` is
the opaque result of `generate_password_hash`. -/
structure Env where
  connAvailable : Bool
  stmtFails : String → Bool
  errText : String → String
  lookupFails : String → Bool
  adminLookupFails : Bool
  insertWithRoleFails : Bool
  insertNoRoleFails : Bool
  adminErr : String
  adminHash : String

/-! ## Console messages of `migrate.py` -/

def skipMsg (name : String) : String := "Skipping " ++ name ++ " (already applied)"

def applyingMsg (name : String) : String := "Applying " ++ name ++ "…"

def completeMsg : String := "Migrations complete."

def connFailMsg : String := "Database connection failed. Check env and drivers."

/-- Line 95: `f"Warning: failed statement in {path.name}: {stmt[:80]}... ({e})"`. -/
def warnMsg (name stmt err : String) : String :=
  "Warning: failed statement in " ++ name ++ ": " ++ String.mk (stmt.data.take 80)
    ++ "... (" ++ err ++ ")"

def adminCreatedMsg : String :=
  "Admin user created: username=admin (use ADMIN_PASSWORD env to override default)"

def adminWarnMsg (e : String) : String := "Warning: failed to ensure admin user: " ++ e

/-! ## The migration engine (`migrate.py`) -/

/-- `load_migrations` (lines 66–71): the `*.sql` files of the migrations
directory, sorted by filename.  The directory listing is the input list. -/
def load_migrations (dir : List MigrationFile) : List MigrationFile :=
  (dir.filter (fun f => endsWithSql f.name)).insertionSort
    (fun a b => nameLe a.name b.name = true)

/-- The result set of `SELECT 1 FROM schema_migrations WHERE name=%s`. -/
def selectMigration (rec : List String) (name : String) : List String :=
  rec.filter (fun n => n = name)

/-- `already_applied` (lines 74–82): `bool(cur.fetchone())` after the point
lookup, and `False` when the lookup itself raises. -/
def already_applied (env : Env) (rec : List String) (name : String) : Bool :=
  if env.lookupFails name then false
  else (selectMigration rec name).head?.isSome

/-- The unguarded `INSERT INTO schema_migrations (name) VALUES (%s)` of
line 96: the `UNIQUE` constraint on `name` makes a duplicate insert raise. -/
def insertRecord (rec : List String) (name : String) : Except String (List String) :=
  if name ∈ rec then Except.error "Duplicate entry" else Except.ok (rec ++ [name])

/-- The per-statement loop of `apply_migration` (lines 91–95): every
statement is attempted; a raising statement only prints a warning. -/
def execStmts (env : Env) (name : String) : List String → St → St
  | [], st => st
  | s :: rest, st =>
    let st1 : St := { st with attempted := st.attempted ++ [s] }
    let st2 : St :=
      if env.stmtFails s then
        { st1 with output := st1.output ++ [warnMsg name s (env.errText s)] }
      else st1
    execStmts env name rest st2

/-- `apply_migration` (lines 85–97): run every statement of the file, then
record the filename in `schema_migrations`. -/
def apply_migration (env : Env) (f : MigrationFile) (st : St) : Except String St :=
  let st1 := execStmts env f.name (splitStatements f.text) st
  match insertRecord st1.recorded f.name with
  | Except.error e => Except.error e
  | Except.ok r =>
      Except.ok { st1 with recorded := r, applied := st1.applied ++ [f.name] }

/-- The migration loop of `main` (lines 120–125): skip a unit the tracker
already holds, otherwise apply it. -/
def runPass (env : Env) : List MigrationFile → St → Except String St
  | [], st => Except.ok st
  | f :: rest, st =>
    if already_applied env st.recorded f.name then
      runPass env rest { st with output := st.output ++ [skipMsg f.name] }
    else
      match apply_migration env f
          { st with output := st.output ++ [applyingMsg f.name] } with
      | Except.error e => Except.error e
      | Except.ok st1 => runPass env rest st1

/-- The admin row the seeder inserts when the schema accepts the `role`
column value (lines 136–139). -/
def adminRowWithRole (env : Env) : AdminRow :=
  ⟨"admin", "admin@example.com", env.adminHash, some "admin"⟩

/-- The fallback row inserted without the role column (lines 141–144). -/
def adminRowNoRole (env : Env) : AdminRow :=
  ⟨"admin", "admin@example.com", env.adminHash, none⟩

/-- The admin-seeding block of `main` (lines 129–148): look up the reserved
username; if absent insert with the elevated role, falling back to an
insert without the role column; any escaping failure is caught and printed
as a warning. -/
def ensure_admin (env : Env) (st : St) : St :=
  if env.adminLookupFails then
    { st with output := st.output ++ [adminWarnMsg env.adminErr] }
  else if ((st.users.filter (fun u => u.username = "admin")).head?).isSome then
    st
  else if env.insertWithRoleFails = false then
    { st with users := st.users ++ [adminRowWithRole env],
              output := st.output ++ [adminCreatedMsg] }
  else if env.insertNoRoleFails = false then
    { st with users := st.users ++ [adminRowNoRole env],
              output := st.output ++ [adminCreatedMsg] }
  else
    { st with output := st.output ++ [adminWarnMsg env.adminErr] }

/-- `migrate.main` (lines 100–148; the name `main` is reserved in Lean):
connect (creating the database if missing), bail out with a printed message
when no connection can be made, ensure the tracking table, apply the
pending units, print completion, seed the admin account. -/
def migrateMain (env : Env) (dir : List MigrationFile) (st : St) : Except String St :=
  if env.connAvailable = false then
    Except.ok { st with output := st.output ++ [connFailMsg] }
  else
    let st0 : St := { st with acquired := st.acquired + 1, trackingTable := true }
    match runPass env (load_migrations dir) st0 with
    | Except.error e => Except.error e
    | Except.ok st1 =>
        Except.ok (ensure_admin env { st1 with output := st1.output ++ [completeMsg] })

/-! ## `connect_mysql` (migrate.py lines 18–63; identically main.py 563–608) -/

/-- The two driver backends tried in order. -/
inductive Driver where
  | pymysql
  | connector
deriving DecidableEq, Repr, Fintype

/-- A connection object, labelled with the backend that produced it and
whether it came from the reconnect after the create-database attempt. -/
structure Conn where
  driver : Driver
  viaCreate : Bool
deriving DecidableEq, Repr

/-- The observable driver-level calls of `connect_mysql`. -/
inductive ConnEv where
  | direct (d : Driver)
  | server (d : Driver)
  | createDb (d : Driver)
  | closeTmp (d : Driver)
deriving DecidableEq, Repr

/-- Failure modes of one driver backend: whether its import succeeds,
whether the direct connect to the named database succeeds, whether the
server-level connect, the `CREATE DATABASE IF NOT EXISTS` statement and
the reconnect succeed. -/
structure DriverEnv where
  importOk : Bool
  directOk : Bool
  serverConnOk : Bool
  createOk : Bool
  reconnectOk : Bool
deriving DecidableEq, Repr, Fintype

/-- The outer driver environment: one `DriverEnv` per backend. -/
structure ConnEnv where
  pymysql : DriverEnv
  connector : DriverEnv
deriving DecidableEq, Repr, Fintype

/-- One `try: import …; try: connect … except: …` block of `connect_mysql`
(lines 20–42 for pymysql, 43–62 for mysql.connector): any exception of the
block is swallowed by the outer `except Exception: pass`, after which
control falls through to the next block.  Returns the connection the block
`return`s (or `none` for fallthrough) and the driver calls it made. -/
def tryDriver (createIfMissing : Bool) (d : Driver) (e : DriverEnv) :
    Option Conn × List ConnEv :=
  if e.importOk = false then (none, [])
  else if e.directOk then (some ⟨d, false⟩, [ConnEv.direct d])
  else if createIfMissing = false then (none, [ConnEv.direct d])
  else if e.serverConnOk = false then (none, [ConnEv.direct d, ConnEv.server d])
  else if e.createOk = false then
    (none, [ConnEv.direct d, ConnEv.server d, ConnEv.createDb d])
  else if e.reconnectOk then
    (some ⟨d, true⟩,
      [ConnEv.direct d, ConnEv.server d, ConnEv.createDb d, ConnEv.closeTmp d,
        ConnEv.direct d])
  else
    (none,
      [ConnEv.direct d, ConnEv.server d, ConnEv.createDb d, ConnEv.closeTmp d,
        ConnEv.direct d])

/-- The driver cascade of `connect_mysql`: the pymysql block, then the
mysql.connector block, then `return None`. -/
def driversConnect (createIfMissing : Bool) (env : ConnEnv) :
    Option Conn × List ConnEv :=
  match tryDriver createIfMissing Driver.pymysql env.pymysql with
  | (some c, evs) => (some c, evs)
  | (none, evs1) =>
    match tryDriver createIfMissing Driver.connector env.connector with
    | (some c, evs2) => (some c, evs1 ++ evs2)
    | (none, evs2) => (none, evs1 ++ evs2)

/-- `connect_mysql` (lines 18–63): `cfg = mysql_config()` runs before any
`try`, and `mysql_config` applies `int` to the `MYSQL_PORT` environment
value (default `"3306"`), so an unparsable port raises `ValueError` out of
the function; otherwise the driver cascade runs and no exception escapes.
`portVar` is the `MYSQL_PORT` setting (`none` = unset). -/
def connect_mysql (createIfMissing : Bool) (portVar : Option String)
    (env : ConnEnv) : Except String (Option Conn × List ConnEv) :=
  if intParseOk (portVar.getD "3306") then
    Except.ok (driversConnect createIfMissing env)
  else
    Except.error "ValueError"

/-- Number of direct connection attempts in a call trace. -/
def countDirect (evs : List ConnEv) : Nat :=
  (evs.filter (fun ev => match ev with | ConnEv.direct _ => true | _ => false)).length

/-- Number of `CREATE DATABASE` attempts in a call trace. -/
def countCreate (evs : List ConnEv) : Nat :=
  (evs.filter (fun ev => match ev with | ConnEv.createDb _ => true | _ => false)).length

/-! ## Derived closed forms of the run (proved equal to the code model) -/

/-- The warning lines `apply_migration` prints for one unit. -/
def warnList (env : Env) (name : String) (stmts : List String) : List String :=
  (stmts.filter env.stmtFails).map (fun s => warnMsg name s (env.errText s))

/-- The state `apply_migration` produces for a unit not yet recorded. -/
def applyResult (env : Env) (f : MigrationFile) (st : St) : St :=
  { st with
    attempted := st.attempted ++ splitStatements f.text,
    output := st.output ++ warnList env f.name (splitStatements f.text),
    recorded := st.recorded ++ [f.name],
    applied := st.applied ++ [f.name] }

/-- The migration loop under fault-free tracker lookups (proved to agree
with `runPass` whenever no lookup raises). -/
def runP (env : Env) : List MigrationFile → St → St
  | [], st => st
  | f :: rest, st =>
    if f.name ∈ st.recorded then
      runP env rest { st with output := st.output ++ [skipMsg f.name] }
    else
      runP env rest (applyResult env f
        { st with output := st.output ++ [applyingMsg f.name] })

/-- The names a pass starting from tracker contents `rec` applies, in order. -/
def pendingNames : List MigrationFile → List String → List String
  | [], _ => []
  | f :: rest, rec =>
    if f.name ∈ rec then pendingNames rest rec
    else f.name :: pendingNames rest (rec ++ [f.name])

/-- The statements such a pass hands to `cur.execute`, in order. -/
def pendingStmts : List MigrationFile → List String → List String
  | [], _ => []
  | f :: rest, rec =>
    if f.name ∈ rec then pendingStmts rest rec
    else splitStatements f.text ++ pendingStmts rest (rec ++ [f.name])

/-- The console lines such a pass prints, in order. -/
def passTrace (env : Env) : List MigrationFile → List String → List String
  | [], _ => []
  | f :: rest, rec =>
    if f.name ∈ rec then skipMsg f.name :: passTrace env rest rec
    else
      (applyingMsg f.name :: warnList env f.name (splitStatements f.text))
        ++ passTrace env rest (rec ++ [f.name])

/-- The rows the seeding block inserts. -/
def adminInserts (env : Env) (users : List AdminRow) : List AdminRow :=
  if env.adminLookupFails then []
  else if ((users.filter (fun u => u.username = "admin")).head?).isSome then []
  else if env.insertWithRoleFails = false then [adminRowWithRole env]
  else if env.insertNoRoleFails = false then [adminRowNoRole env]
  else []

/-- The lines the seeding block prints. -/
def adminTrace (env : Env) (users : List AdminRow) : List String :=
  if env.adminLookupFails then [adminWarnMsg env.adminErr]
  else if ((users.filter (fun u => u.username = "admin")).head?).isSome then []
  else if env.insertWithRoleFails = false then [adminCreatedMsg]
  else if env.insertNoRoleFails = false then [adminCreatedMsg]
  else [adminWarnMsg env.adminErr]

/-- The state of `migrate.main` right after the connect and the
`CREATE TABLE IF NOT EXISTS schema_migrations`. -/
def connSt (st : St) : St :=
  { st with acquired := st.acquired + 1, trackingTable := true }

/-- The number of `users` rows carrying the reserved username. -/
def countAdmin (users : List AdminRow) : Nat :=
  (users.filter (fun u => u.username = "admin")).length

/-- The state a connected, lookup-fault-free `migrate.main` run ends in
(proved equal to the `Except.ok` value of `migrateMain`). -/
def firstRun (env : Env) (dir : List MigrationFile) (st : St) : St :=
  ensure_admin env
    { runP env (load_migrations dir) (connSt st) with
      output := (runP env (load_migrations dir) (connSt st)).output ++ [completeMsg] }

/-! ## Concrete instances for witnesses and counterexamples -/

/-- A run environment in which no driver call fails. -/
def envHonest : Env :=
  { connAvailable := true
    stmtFails := fun _ => false
    errText := fun _ => ""
    lookupFails := fun _ => false
    adminLookupFails := false
    insertWithRoleFails := false
    insertNoRoleFails := false
    adminErr := ""
    adminHash := "pbkdf2-hash" }

/-- Like `envHonest` but every tracker lookup raises. -/
def envLookupFail : Env := { envHonest with lookupFails := fun _ => true }

/-- Like `envHonest` but the statement `BAD STATEMENT` raises. -/
def envC2 : Env :=
  { envHonest with stmtFails := fun s => s = "BAD STATEMENT",
                   errText := fun _ => "1064 syntax error" }

/-- Like `envHonest` but the role-carrying admin insert raises (old schema). -/
def envC7 : Env := { envHonest with insertWithRoleFails := true }

/-- A three-statement unit whose second statement fails under `envC2`. -/
def fileC2 : MigrationFile :=
  ⟨"0002_demo.sql",
   "CREATE TABLE a (x INT); BAD STATEMENT ; CREATE TABLE b (y INT)"⟩

/-- The empty starting state. -/
def stEmpty : St :=
  { recorded := [], users := [], trackingTable := false, output := [],
    attempted := [], applied := [], acquired := 0, closed := 0 }

/-- A starting state whose `users` table already holds the admin row. -/
def stAdmin : St :=
  { stEmpty with users := [⟨"admin", "admin@example.com", "h", some "admin"⟩] }

/-- The spec's example units, listed out of order. -/
def dirExample : List MigrationFile :=
  [⟨"0010_add_index.sql", "CREATE INDEX idx ON tasks (user_id)"⟩,
   ⟨"0001_init.sql", "CREATE TABLE users (id INT); CREATE TABLE tasks (id INT)"⟩,
   ⟨"0002_add_column.sql", "ALTER TABLE tasks ADD done INT"⟩]

/-- A driver environment in which the whole pymysql path (including its
create-then-reconnect attempt) fails and mysql.connector connects
directly. -/
def envC5 : ConnEnv :=
  { pymysql := ⟨true, false, true, true, false⟩,
    connector := ⟨true, true, true, true, true⟩ }

/-! ## Characterization lemmas -/

theorem execStmts_eq (env : Env) (name : String) (ss : List String) : ∀ (st : St),
    execStmts env name ss st =
      { st with attempted := st.attempted ++ ss,
                output := st.output ++ warnList env name ss } := by
  induction ss with
  | nil => intro st; simp [execStmts, warnList]
  | cons s rest ih =>
      intro st
      by_cases h : env.stmtFails s <;>
        simp [execStmts, h, warnList, List.filter_cons, ih, List.append_assoc]

theorem apply_migration_eq (env : Env) (f : MigrationFile) (st : St)
    (h : f.name ∉ st.recorded) :
    apply_migration env f st = Except.ok (applyResult env f st) := by
  simp [apply_migration, execStmts_eq, insertRecord, applyResult, h]

theorem already_applied_honest (env : Env) (rec : List String) (name : String)
    (h : env.lookupFails name = false) :
    already_applied env rec name = decide (name ∈ rec) := by
  by_cases hm : name ∈ rec
  · have hne : selectMigration rec name ≠ [] := by
      simp only [selectMigration, ne_eq, List.filter_eq_nil_iff, not_forall]
      exact ⟨name, hm, by simp⟩
    simp [already_applied, h, hm, List.head?_isSome.mpr hne]
  · have hnil : selectMigration rec name = [] := by
      simp only [selectMigration, List.filter_eq_nil_iff]
      intro a ha
      simp only [decide_eq_true_eq]
      intro hEq
      exact hm (hEq ▸ ha)
    simp [already_applied, h, hm, hnil]

theorem runPass_eq_runP (env : Env) (hl : ∀ n, env.lookupFails n = false)
    (fs : List MigrationFile) : ∀ (st : St),
    runPass env fs st = Except.ok (runP env fs st) := by
  induction fs with
  | nil => intro st; simp [runPass, runP]
  | cons f rest ih =>
      intro st
      rw [runPass, runP, already_applied_honest env st.recorded f.name (hl f.name)]
      by_cases hm : f.name ∈ st.recorded
      · simp [hm, ih]
      · have h2 : f.name ∉
            (({ st with output := st.output ++ [applyingMsg f.name] } : St)).recorded := hm
        simp [hm, apply_migration_eq _ _ _ h2, ih]

theorem runP_spec (env : Env) (fs : List MigrationFile) : ∀ (st : St),
    runP env fs st = { st with
      recorded := st.recorded ++ pendingNames fs st.recorded,
      applied := st.applied ++ pendingNames fs st.recorded,
      attempted := st.attempted ++ pendingStmts fs st.recorded,
      output := st.output ++ passTrace env fs st.recorded } := by
  induction fs with
  | nil => intro st; simp [runP, pendingNames, pendingStmts, passTrace]
  | cons f rest ih =>
      intro st
      rw [runP, pendingNames, pendingStmts, passTrace]
      by_cases hm : f.name ∈ st.recorded
      · simp [hm, ih, List.append_assoc]
      · simp [hm, ih, applyResult, List.append_assoc]

theorem pendingNames_nil_of_all_mem (fs : List MigrationFile) :
    ∀ (rec : List String), (∀ f ∈ fs, f.name ∈ rec) → pendingNames fs rec = [] := by
  induction fs with
  | nil => intro rec _; rfl
  | cons f rest ih =>
      intro rec h
      have hf : f.name ∈ rec := h f (by simp)
      rw [pendingNames, if_pos hf]
      exact ih rec (fun g hg => h g (by simp [hg]))

theorem mem_recorded_after (fs : List MigrationFile) :
    ∀ (rec : List String), ∀ f ∈ fs, f.name ∈ rec ++ pendingNames fs rec := by
  induction fs with
  | nil => intro rec f hf; cases hf
  | cons g rest ih =>
      intro rec f hf
      rw [pendingNames]
      by_cases hm : g.name ∈ rec
      · rw [if_pos hm]
        rcases List.mem_cons.mp hf with hEq | hmem
        · subst hEq; exact List.mem_append_left _ hm
        · exact ih rec f hmem
      · rw [if_neg hm]
        rcases List.mem_cons.mp hf with hEq | hmem
        · subst hEq
          exact List.mem_append_right _ (by simp)
        · have := ih (rec ++ [g.name]) f hmem
          simpa [List.append_assoc] using this

theorem pendingNames_fresh (fs : List MigrationFile) :
    ∀ (rec : List String), (fs.map (fun f => f.name)).Nodup →
      (∀ f ∈ fs, f.name ∉ rec) →
      pendingNames fs rec = fs.map (fun f => f.name) := by
  induction fs with
  | nil => intro rec _ _; rfl
  | cons f rest ih =>
      intro rec hnd hfresh
      rw [pendingNames, if_neg (hfresh f (by simp))]
      rw [List.map_cons]
      congr 1
      have hndRest : (rest.map (fun f => f.name)).Nodup := (List.nodup_cons.mp hnd).2
      refine ih (rec ++ [f.name]) hndRest ?_
      intro g hg
      simp only [List.mem_append, List.mem_singleton, not_or]
      refine ⟨hfresh g (by simp [hg]), ?_⟩
      intro hEq
      apply (List.nodup_cons.mp hnd).1
      show f.name ∈ List.map (fun f => f.name) rest
      rw [← hEq]
      exact List.mem_map_of_mem (fun f => f.name) hg

theorem ensure_admin_spec (env : Env) (st : St) :
    ensure_admin env st = { st with
      users := st.users ++ adminInserts env st.users,
      output := st.output ++ adminTrace env st.users } := by
  rw [ensure_admin, adminInserts, adminTrace]
  split_ifs <;> simp

theorem migrateMain_eq (env : Env) (dir : List MigrationFile) (st : St)
    (hc : env.connAvailable = true) (hl : ∀ n, env.lookupFails n = false) :
    migrateMain env dir st = Except.ok (ensure_admin env
      { runP env (load_migrations dir) (connSt st) with
        output := (runP env (load_migrations dir) (connSt st)).output
          ++ [completeMsg] }) := by
  rw [migrateMain, if_neg (by simp [hc])]
  show (match runPass env (load_migrations dir) (connSt st) with
    | Except.error e => Except.error e
    | Except.ok st1 =>
        Except.ok (ensure_admin env
          { st1 with output := st1.output ++ [completeMsg] })) = _
  rw [runPass_eq_runP env hl]

/-! ## The filename order is a total preorder, antisymmetric on strings -/

theorem lexLe_total : ∀ a b : List Char, lexLe a b = true ∨ lexLe b a = true := by
  intro a
  induction a with
  | nil => intro b; left; rfl
  | cons x xs ih =>
      intro b
      cases b with
      | nil => right; rfl
      | cons y ys =>
          rcases Nat.lt_trichotomy x.val.toNat y.val.toNat with h | h | h
          · left; simp [lexLe, show x.val < y.val from h]
          · have hxy : ¬ x.val < y.val := by
              intro hl
              have hl2 : x.val.toNat < y.val.toNat := hl
              omega
            have hyx : ¬ y.val < x.val := by
              intro hl
              have hl2 : y.val.toNat < x.val.toNat := hl
              omega
            rcases ih ys with h2 | h2
            · left; simp [lexLe, hxy, hyx, h2]
            · right; simp [lexLe, hxy, hyx, h2]
          · right; simp [lexLe, show y.val < x.val from h]

theorem lexLe_trans : ∀ a b c : List Char,
    lexLe a b = true → lexLe b c = true → lexLe a c = true := by
  intro a
  induction a with
  | nil => intro b c _ _; rfl
  | cons x xs ih =>
      intro b c hab hbc
      cases b with
      | nil => simp [lexLe] at hab
      | cons y ys =>
          cases c with
          | nil => simp [lexLe] at hbc
          | cons z zs =>
              rw [lexLe] at hab hbc ⊢
              by_cases hxy : x.val < y.val
              · by_cases hyz : y.val < z.val
                · have : x.val < z.val := Nat.lt_trans hxy hyz
                  simp [this]
                · by_cases hzy : z.val < y.val
                  · simp [hyz, hzy] at hbc
                  · have hEq : y.val = z.val := UInt32.ext (by
                      have h1 : ¬ y.val.toNat < z.val.toNat := hyz
                      have h2 : ¬ z.val.toNat < y.val.toNat := hzy
                      omega)
                    have : x.val < z.val := hEq ▸ hxy
                    simp [this]
              · by_cases hyx : y.val < x.val
                · simp [hxy, hyx] at hab
                · have hEq : x.val = y.val := UInt32.ext (by
                    have h1 : ¬ x.val.toNat < y.val.toNat := hxy
                    have h2 : ¬ y.val.toNat < x.val.toNat := hyx
                    omega)
                  by_cases hyz : y.val < z.val
                  · have : x.val < z.val := hEq ▸ hyz
                    simp [this]
                  · by_cases hzy : z.val < y.val
                    · simp [hyz, hzy] at hbc
                    · have hxz : ¬ x.val < z.val := hEq ▸ hyz
                      have hzx : ¬ z.val < x.val := hEq ▸ hzy
                      simp [hxy, hyx] at hab
                      simp [hyz, hzy] at hbc
                      simp [hxz, hzx]
                      exact ih ys zs hab hbc

theorem lexLe_antisymm : ∀ a b : List Char,
    lexLe a b = true → lexLe b a = true → a = b := by
  intro a
  induction a with
  | nil =>
      intro b _ hba
      cases b with
      | nil => rfl
      | cons y ys => simp [lexLe] at hba
  | cons x xs ih =>
      intro b hab hba
      cases b with
      | nil => simp [lexLe] at hab
      | cons y ys =>
          rw [lexLe] at hab hba
          by_cases hxy : x.val < y.val
          · have : ¬ y.val < x.val := fun h =>
              Nat.lt_irrefl _ (Nat.lt_trans (h : y.val.toNat < x.val.toNat) hxy)
            simp [hxy, this] at hba
          · by_cases hyx : y.val < x.val
            · simp [hxy, hyx] at hab
            · have hEq : x = y := Char.ext (UInt32.ext (by
                have h1 : ¬ x.val.toNat < y.val.toNat := hxy
                have h2 : ¬ y.val.toNat < x.val.toNat := hyx
                omega))
              simp [hxy, hyx] at hab hba
              rw [hEq, ih ys hab hba]

theorem nameLe_total (a b : String) : nameLe a b = true ∨ nameLe b a = true :=
  lexLe_total a.data b.data

theorem nameLe_trans (a b c : String) (h1 : nameLe a b = true) (h2 : nameLe b c = true) :
    nameLe a c = true :=
  lexLe_trans a.data b.data c.data h1 h2

theorem nameLe_antisymm (a b : String) (h1 : nameLe a b = true) (h2 : nameLe b a = true) :
    a = b := by
  have h := lexLe_antisymm a.data b.data h1 h2
  cases a
  cases b
  exact congrArg String.mk h

instance : IsTotal MigrationFile (fun a b => nameLe a.name b.name = true) :=
  ⟨fun a b => nameLe_total a.name b.name⟩

instance : IsTrans MigrationFile (fun a b => nameLe a.name b.name = true) :=
  ⟨fun a b c => nameLe_trans a.name b.name c.name⟩

instance : IsAntisymm String (fun a b => nameLe a b = true) :=
  ⟨nameLe_antisymm⟩

/-! ## Projection lemmas -/

theorem ensure_admin_recorded (env : Env) (st : St) :
    (ensure_admin env st).recorded = st.recorded := by
  rw [ensure_admin_spec]

theorem ensure_admin_applied (env : Env) (st : St) :
    (ensure_admin env st).applied = st.applied := by
  rw [ensure_admin_spec]

theorem ensure_admin_trackingTable (env : Env) (st : St) :
    (ensure_admin env st).trackingTable = st.trackingTable := by
  rw [ensure_admin_spec]

theorem ensure_admin_acquired (env : Env) (st : St) :
    (ensure_admin env st).acquired = st.acquired := by
  rw [ensure_admin_spec]

theorem ensure_admin_closed (env : Env) (st : St) :
    (ensure_admin env st).closed = st.closed := by
  rw [ensure_admin_spec]

theorem ensure_admin_users (env : Env) (st : St) :
    (ensure_admin env st).users = st.users ++ adminInserts env st.users := by
  rw [ensure_admin_spec]

theorem ensure_admin_output (env : Env) (st : St) :
    (ensure_admin env st).output = st.output ++ adminTrace env st.users := by
  rw [ensure_admin_spec]

theorem runP_recorded (env : Env) (fs : List MigrationFile) (st : St) :
    (runP env fs st).recorded = st.recorded ++ pendingNames fs st.recorded := by
  rw [runP_spec]

theorem runP_applied (env : Env) (fs : List MigrationFile) (st : St) :
    (runP env fs st).applied = st.applied ++ pendingNames fs st.recorded := by
  rw [runP_spec]

theorem runP_users (env : Env) (fs : List MigrationFile) (st : St) :
    (runP env fs st).users = st.users := by
  rw [runP_spec]

theorem runP_output (env : Env) (fs : List MigrationFile) (st : St) :
    (runP env fs st).output = st.output ++ passTrace env fs st.recorded := by
  rw [runP_spec]

theorem migrateMain_eq_firstRun (env : Env) (dir : List MigrationFile) (st : St)
    (hc : env.connAvailable = true) (hl : ∀ n, env.lookupFails n = false) :
    migrateMain env dir st = Except.ok (firstRun env dir st) :=
  migrateMain_eq env dir st hc hl

theorem firstRun_recorded (env : Env) (dir : List MigrationFile) (st : St) :
    (firstRun env dir st).recorded
      = st.recorded ++ pendingNames (load_migrations dir) st.recorded := by
  rw [firstRun, ensure_admin_recorded]
  exact runP_recorded env (load_migrations dir) (connSt st)

theorem firstRun_applied (env : Env) (dir : List MigrationFile) (st : St) :
    (firstRun env dir st).applied
      = st.applied ++ pendingNames (load_migrations dir) st.recorded := by
  rw [firstRun, ensure_admin_applied]
  exact runP_applied env (load_migrations dir) (connSt st)

theorem firstRun_users (env : Env) (dir : List MigrationFile) (st : St) :
    (firstRun env dir st).users = st.users ++ adminInserts env st.users := by
  rw [firstRun, ensure_admin_users]
  rw [show ({ runP env (load_migrations dir) (connSt st) with
      output := (runP env (load_migrations dir) (connSt st)).output
        ++ [completeMsg] } : St).users
    = (runP env (load_migrations dir) (connSt st)).users from rfl]
  rw [runP_users]
  exact rfl

theorem firstRun_trackingTable (env : Env) (dir : List MigrationFile) (st : St) :
    (firstRun env dir st).trackingTable = true := by
  rw [firstRun, ensure_admin_trackingTable]
  rw [show ({ runP env (load_migrations dir) (connSt st) with
      output := (runP env (load_migrations dir) (connSt st)).output
        ++ [completeMsg] } : St).trackingTable
    = (runP env (load_migrations dir) (connSt st)).trackingTable from rfl]
  rw [runP_spec]
  exact rfl

theorem firstRun_acquired (env : Env) (dir : List MigrationFile) (st : St) :
    (firstRun env dir st).acquired = st.acquired + 1 := by
  rw [firstRun, ensure_admin_acquired]
  rw [show ({ runP env (load_migrations dir) (connSt st) with
      output := (runP env (load_migrations dir) (connSt st)).output
        ++ [completeMsg] } : St).acquired
    = (runP env (load_migrations dir) (connSt st)).acquired from rfl]
  rw [runP_spec]
  exact rfl

theorem firstRun_closed (env : Env) (dir : List MigrationFile) (st : St) :
    (firstRun env dir st).closed = st.closed := by
  rw [firstRun, ensure_admin_closed]
  rw [show ({ runP env (load_migrations dir) (connSt st) with
      output := (runP env (load_migrations dir) (connSt st)).output
        ++ [completeMsg] } : St).closed
    = (runP env (load_migrations dir) (connSt st)).closed from rfl]
  rw [runP_spec]
  exact rfl

theorem firstRun_output (env : Env) (dir : List MigrationFile) (st : St) :
    (firstRun env dir st).output
      = st.output ++ passTrace env (load_migrations dir) st.recorded
        ++ [completeMsg] ++ adminTrace env st.users := by
  rw [firstRun, ensure_admin_output]
  rw [show ({ runP env (load_migrations dir) (connSt st) with
      output := (runP env (load_migrations dir) (connSt st)).output
        ++ [completeMsg] } : St).output
    = (runP env (load_migrations dir) (connSt st)).output ++ [completeMsg] from rfl]
  rw [show ({ runP env (load_migrations dir) (connSt st) with
      output := (runP env (load_migrations dir) (connSt st)).output
        ++ [completeMsg] } : St).users
    = (runP env (load_migrations dir) (connSt st)).users from rfl]
  rw [runP_output, runP_users]
  exact rfl

/-! ## Claim theorems -/

/-- Claim C4: `already_applied` returns true exactly when a row with the
name exists in `schema_migrations` whenever the point lookup succeeds, and
returns false (propagating nothing) whenever the lookup itself raises. -/
theorem c4_isApplied_lookup (env : Env) (rec : List String) (name : String) :
    (env.lookupFails name = false →
      (already_applied env rec name = true ↔ name ∈ rec))
    ∧ (env.lookupFails name = true → already_applied env rec name = false) := by
  constructor
  · intro h
    rw [already_applied_honest env rec name h]
    simp
  · intro h
    simp [already_applied, h]

/-- Witness for C4 at a concrete tracker state: the lookup finds the
recorded name, and a raising lookup yields false. -/
theorem c4_isApplied_lookup_witness :
    (envHonest.lookupFails "0001_init.sql" = false →
      (already_applied envHonest ["0001_init.sql"] "0001_init.sql" = true
        ↔ "0001_init.sql" ∈ ["0001_init.sql"]))
    ∧ (envLookupFail.lookupFails "0001_init.sql" = true →
      already_applied envLookupFail ["0001_init.sql"] "0001_init.sql" = false) :=
  ⟨(c4_isApplied_lookup envHonest ["0001_init.sql"] "0001_init.sql").1,
   (c4_isApplied_lookup envLookupFail ["0001_init.sql"] "0001_init.sql").2⟩

/-- Claim C2: for a pending unit, every statement is attempted even when
some fail, each failure is logged with the unit name, the statement text
truncated to 80 characters and the error, and afterwards the unit's name is
recorded in `schema_migrations` unconditionally, so a later (fault-free)
`already_applied` gate returns true and the unit is never re-attempted. -/
theorem c2_partial_failure_recorded (env : Env) (f : MigrationFile) (st : St)
    (h : f.name ∉ st.recorded) :
    apply_migration env f st = Except.ok (applyResult env f st)
    ∧ (applyResult env f st).attempted = st.attempted ++ splitStatements f.text
    ∧ (applyResult env f st).output
        = st.output ++ ((splitStatements f.text).filter env.stmtFails).map
            (fun s => warnMsg f.name s (env.errText s))
    ∧ (applyResult env f st).recorded = st.recorded ++ [f.name]
    ∧ (env.lookupFails f.name = false →
        already_applied env (applyResult env f st).recorded f.name = true) := by
  refine ⟨apply_migration_eq env f st h, rfl, rfl, rfl, ?_⟩
  intro hl
  rw [show (applyResult env f st).recorded = st.recorded ++ [f.name] from rfl,
    already_applied_honest env _ _ hl]
  simp

/-- Witness for C2: the spec's three-statement scenario, middle statement
failing; the split of the concrete file is also evaluated. -/
theorem c2_partial_failure_recorded_witness :
    (apply_migration envC2 fileC2 stEmpty = Except.ok (applyResult envC2 fileC2 stEmpty)
    ∧ (applyResult envC2 fileC2 stEmpty).attempted
        = stEmpty.attempted ++ splitStatements fileC2.text
    ∧ (applyResult envC2 fileC2 stEmpty).output
        = stEmpty.output ++ ((splitStatements fileC2.text).filter envC2.stmtFails).map
            (fun s => warnMsg fileC2.name s (envC2.errText s))
    ∧ (applyResult envC2 fileC2 stEmpty).recorded = stEmpty.recorded ++ [fileC2.name]
    ∧ (envC2.lookupFails fileC2.name = false →
        already_applied envC2 (applyResult envC2 fileC2 stEmpty).recorded fileC2.name
          = true))
    ∧ splitStatements fileC2.text
        = ["CREATE TABLE a (x INT)", "BAD STATEMENT", "CREATE TABLE b (y INT)"]
    ∧ (applyResult envC2 fileC2 stEmpty).recorded = ["0002_demo.sql"] :=
  ⟨c2_partial_failure_recorded envC2 fileC2 stEmpty (by decide), by decide, by decide⟩

/-- Claim C1: against any database state, a connected, lookup-fault-free
migration pass run twice applies zero units the second time and leaves the
recorded name set unchanged between the end of the first and the end of the
second run. -/
theorem c1_migration_pass_idempotent (env : Env) (dir : List MigrationFile) (st : St)
    (hc : env.connAvailable = true) (hl : ∀ n, env.lookupFails n = false) :
    ∃ st1 st2,
      migrateMain env dir st = Except.ok st1
      ∧ migrateMain env dir { st1 with output := [], attempted := [], applied := [] }
          = Except.ok st2
      ∧ st2.applied = []
      ∧ st2.recorded = st1.recorded := by
  have hcov : ∀ f ∈ load_migrations dir, f.name ∈ (firstRun env dir st).recorded := by
    intro f hf
    rw [firstRun_recorded]
    exact mem_recorded_after (load_migrations dir) st.recorded f hf
  have hnil : pendingNames (load_migrations dir) (firstRun env dir st).recorded = [] :=
    pendingNames_nil_of_all_mem (load_migrations dir) (firstRun env dir st).recorded hcov
  refine ⟨firstRun env dir st, _,
    migrateMain_eq_firstRun env dir st hc hl,
    migrateMain_eq_firstRun env dir _ hc hl, ?_, ?_⟩
  · rw [firstRun_applied]
    rw [show ({ firstRun env dir st with
        output := [], attempted := [], applied := [] } : St).applied = [] from rfl]
    rw [show ({ firstRun env dir st with
        output := [], attempted := [], applied := [] } : St).recorded
      = (firstRun env dir st).recorded from rfl]
    rw [hnil]
    rfl
  · rw [firstRun_recorded]
    rw [show ({ firstRun env dir st with
        output := [], attempted := [], applied := [] } : St).recorded
      = (firstRun env dir st).recorded from rfl]
    rw [hnil]
    simp

/-- Witness for C1: a concrete three-file directory run twice from an empty
database. -/
theorem c1_migration_pass_idempotent_witness :
    ∃ st1 st2,
      migrateMain envHonest dirExample stEmpty = Except.ok st1
      ∧ migrateMain envHonest dirExample
          { st1 with output := [], attempted := [], applied := [] } = Except.ok st2
      ∧ st2.applied = []
      ∧ st2.recorded = st1.recorded :=
  c1_migration_pass_idempotent envHonest dirExample stEmpty rfl (fun _ => rfl)

/-- Claim C3: the loader output is sorted by filename, keeps exactly the
`.sql` entries of the listing, is independent of the listing order, and a
run from a fresh database applies exactly the loaded names in that order. -/
theorem c3_loader_order (dir dir2 : List MigrationFile) (env : Env) (st : St) :
    List.Pairwise (fun a b => nameLe a.name b.name = true) (load_migrations dir)
    ∧ (load_migrations dir).Perm (dir.filter (fun f => endsWithSql f.name))
    ∧ (dir.Perm dir2 →
        (load_migrations dir).map (fun f => f.name)
          = (load_migrations dir2).map (fun f => f.name))
    ∧ (env.connAvailable = true → (∀ n, env.lookupFails n = false) →
        st.recorded = [] →
        ((load_migrations dir).map (fun f => f.name)).Nodup →
        migrateMain env dir st = Except.ok (firstRun env dir st)
        ∧ (firstRun env dir st).applied
            = st.applied ++ (load_migrations dir).map (fun f => f.name)) := by
  refine ⟨List.sorted_insertionSort
      (fun a b : MigrationFile => nameLe a.name b.name = true) _,
    List.perm_insertionSort
      (fun a b : MigrationFile => nameLe a.name b.name = true) _, ?_, ?_⟩
  · intro hp
    apply List.eq_of_perm_of_sorted
      (r := fun a b : String => nameLe a b = true)
    · exact (((List.perm_insertionSort
        (fun a b : MigrationFile => nameLe a.name b.name = true) _).trans
        (hp.filter (fun f => endsWithSql f.name))).trans
        (List.perm_insertionSort
          (fun a b : MigrationFile => nameLe a.name b.name = true) _).symm).map
        (fun f => f.name)
    · exact List.pairwise_map.mpr (List.sorted_insertionSort
        (fun a b : MigrationFile => nameLe a.name b.name = true) _)
    · exact List.pairwise_map.mpr (List.sorted_insertionSort
        (fun a b : MigrationFile => nameLe a.name b.name = true) _)
  · intro hc hl hrec hnd
    refine ⟨migrateMain_eq_firstRun env dir st hc hl, ?_⟩
    rw [firstRun_applied, hrec]
    rw [pendingNames_fresh (load_migrations dir) [] hnd (fun f _ => by simp)]

/-- Witness for C3: the spec's example filenames, listed out of order, load
in ascending order and are all applied in that order from an empty
database. -/
theorem c3_loader_order_witness :
    (load_migrations dirExample).map (fun f => f.name)
      = ["0001_init.sql", "0002_add_column.sql", "0010_add_index.sql"]
    ∧ (migrateMain envHonest dirExample stEmpty
        = Except.ok (firstRun envHonest dirExample stEmpty)
      ∧ (firstRun envHonest dirExample stEmpty).applied
          = stEmpty.applied ++ (load_migrations dirExample).map (fun f => f.name)) :=
  ⟨by decide,
   (c3_loader_order dirExample dirExample envHonest stEmpty).2.2.2 rfl
     (fun _ => rfl) rfl (by decide)⟩

/-! ## Support lemmas for the admin seeder claims -/

theorem countAdmin_append (a b : List AdminRow) :
    countAdmin (a ++ b) = countAdmin a + countAdmin b := by
  simp [countAdmin, List.filter_append]

theorem countAdmin_withRole (env : Env) : countAdmin [adminRowWithRole env] = 1 := rfl

theorem countAdmin_noRole (env : Env) : countAdmin [adminRowNoRole env] = 1 := rfl

theorem countAdmin_adminInserts_le (env : Env) (users : List AdminRow) :
    countAdmin (adminInserts env users) ≤ 1 := by
  rw [adminInserts]
  split_ifs
  · exact Nat.zero_le 1
  · exact Nat.zero_le 1
  · exact le_of_eq (countAdmin_withRole env)
  · exact le_of_eq (countAdmin_noRole env)
  · exact Nat.zero_le 1

theorem adminInserts_of_present (env : Env) (users : List AdminRow)
    (h : users.filter (fun u => u.username = "admin") ≠ []) :
    adminInserts env users = [] := by
  rw [adminInserts]
  by_cases h1 : env.adminLookupFails = true
  · rw [if_pos h1]
  · have h2 : ((users.filter (fun u => u.username = "admin")).head?).isSome = true :=
      List.head?_isSome.mpr h
    rw [if_neg h1, if_pos h2]

theorem countAdmin_ensure_le (env : Env) (st : St) (h : countAdmin st.users ≤ 1) :
    countAdmin (ensure_admin env st).users ≤ 1 := by
  rw [ensure_admin_users, countAdmin_append]
  by_cases hp : st.users.filter (fun u => u.username = "admin") = []
  · have h0 : countAdmin st.users = 0 := by simp [countAdmin, hp]
    rw [h0]
    simpa using countAdmin_adminInserts_le env st.users
  · rw [adminInserts_of_present env st.users hp]
    simpa [countAdmin] using h

theorem countAdmin_ensure_eq_one (env : Env) (st : St)
    (hlk : env.adminLookupFails = false) (h : countAdmin st.users ≤ 1)
    (hins : env.insertWithRoleFails = false ∨ env.insertNoRoleFails = false) :
    countAdmin (ensure_admin env st).users = 1 := by
  rw [ensure_admin_users, countAdmin_append]
  by_cases hp : st.users.filter (fun u => u.username = "admin") = []
  · have h0 : countAdmin st.users = 0 := by simp [countAdmin, hp]
    have h2 : ((st.users.filter (fun u => u.username = "admin")).head?).isSome = false := by
      rw [hp]; rfl
    have h1 : ¬ env.adminLookupFails = true := by simp [hlk]
    have h2n : ¬ ((st.users.filter (fun u => u.username = "admin")).head?).isSome
        = true := by rw [h2]; exact Bool.false_ne_true
    rw [h0, adminInserts, if_neg h1, if_neg h2n]
    by_cases hw : env.insertWithRoleFails = false
    · rw [if_pos hw, countAdmin_withRole]
    · rcases hins with hi | hi
      · exact absurd hi hw
      · rw [if_neg hw, if_pos hi, countAdmin_noRole]
  · have h1 : 1 ≤ countAdmin st.users := by
      have hpos := List.length_pos.mpr hp
      simpa [countAdmin] using hpos
    rw [adminInserts_of_present env st.users hp]
    have he : countAdmin st.users = 1 := le_antisymm h h1
    have hz : countAdmin ([] : List AdminRow) = 0 := rfl
    omega

/-- Claim C6: the seeder never produces a second row with the reserved
username: with the admin row present it is a no-op, running it twice keeps
the admin count at most one, and a successful pass from a constraint-valid
state leaves exactly one admin row. -/
theorem c6_admin_seed_idempotent (env env2 : Env) (st : St) :
    (env.adminLookupFails = false →
      st.users.filter (fun u => u.username = "admin") ≠ [] →
      ensure_admin env st = st)
    ∧ (st.users.filter (fun u => u.username = "admin") ≠ [] →
      (ensure_admin env st).users = st.users)
    ∧ (countAdmin st.users ≤ 1 →
      countAdmin (ensure_admin env2 (ensure_admin env st)).users ≤ 1)
    ∧ (env.adminLookupFails = false → countAdmin st.users ≤ 1 →
      (env.insertWithRoleFails = false ∨ env.insertNoRoleFails = false) →
      countAdmin (ensure_admin env st).users = 1) := by
  refine ⟨?_, ?_, ?_, countAdmin_ensure_eq_one env st⟩
  · intro hlk hp
    have h2 : ((st.users.filter (fun u => u.username = "admin")).head?).isSome = true :=
      List.head?_isSome.mpr hp
    have h1 : ¬ env.adminLookupFails = true := by simp [hlk]
    rw [ensure_admin, if_neg h1, if_pos h2]
  · intro hp
    rw [ensure_admin_users, adminInserts_of_present env st.users hp]
    simp
  · intro h
    exact countAdmin_ensure_le env2 _ (countAdmin_ensure_le env st h)

/-- Witness for C6: a state already holding the admin row is untouched, and
two runs from the empty state leave at most one admin row. -/
theorem c6_admin_seed_idempotent_witness :
    (envHonest.adminLookupFails = false →
      stAdmin.users.filter (fun u => u.username = "admin") ≠ [] →
      ensure_admin envHonest stAdmin = stAdmin)
    ∧ countAdmin (ensure_admin envHonest (ensure_admin envHonest stEmpty)).users ≤ 1 :=
  ⟨(c6_admin_seed_idempotent envHonest envHonest stAdmin).1,
   (c6_admin_seed_idempotent envHonest envHonest stEmpty).2.2.1 (by decide)⟩

/-- Claim C7: when the role-carrying insert fails the seeder falls back to
inserting the row without the role column; when both inserts fail the step
only logs a warning; either way the run completes and reports
"Migrations complete.". -/
theorem c7_admin_seed_fallback (env : Env) (dir : List MigrationFile) (st : St) :
    (env.adminLookupFails = false →
      st.users.filter (fun u => u.username = "admin") = [] →
      env.insertWithRoleFails = true →
      env.insertNoRoleFails = false →
      ensure_admin env st
        = { st with
            users := st.users ++ [adminRowNoRole env],
            output := st.output ++ [adminCreatedMsg] })
    ∧ (env.adminLookupFails = false →
      st.users.filter (fun u => u.username = "admin") = [] →
      env.insertWithRoleFails = true →
      env.insertNoRoleFails = true →
      ensure_admin env st
        = { st with output := st.output ++ [adminWarnMsg env.adminErr] })
    ∧ (env.connAvailable = true → (∀ n, env.lookupFails n = false) →
      migrateMain env dir st = Except.ok (firstRun env dir st)
      ∧ completeMsg ∈ (firstRun env dir st).output) := by
  refine ⟨?_, ?_, ?_⟩
  · intro hlk hp hw hn
    have h2 : ((st.users.filter (fun u => u.username = "admin")).head?).isSome = false := by
      rw [hp]; rfl
    have h2n : ¬ ((st.users.filter (fun u => u.username = "admin")).head?).isSome
        = true := by rw [h2]; exact Bool.false_ne_true
    have h1 : ¬ env.adminLookupFails = true := by simp [hlk]
    have hwn : ¬ env.insertWithRoleFails = false := by simp [hw]
    rw [ensure_admin, if_neg h1, if_neg h2n, if_neg hwn, if_pos hn]
  · intro hlk hp hw hn
    have h2 : ((st.users.filter (fun u => u.username = "admin")).head?).isSome = false := by
      rw [hp]; rfl
    have h2n : ¬ ((st.users.filter (fun u => u.username = "admin")).head?).isSome
        = true := by rw [h2]; exact Bool.false_ne_true
    have h1 : ¬ env.adminLookupFails = true := by simp [hlk]
    have hwn : ¬ env.insertWithRoleFails = false := by simp [hw]
    have hnn : ¬ env.insertNoRoleFails = false := by simp [hn]
    rw [ensure_admin, if_neg h1, if_neg h2n, if_neg hwn, if_neg hnn]
  · intro hc hl
    refine ⟨migrateMain_eq_firstRun env dir st hc hl, ?_⟩
    rw [firstRun_output]
    simp

/-- Witness for C7: under `envC7` (role insert fails) the seeder inserts the
role-less row from an empty user table. -/
theorem c7_admin_seed_fallback_witness :
    ensure_admin envC7 stEmpty
      = { stEmpty with
          users := stEmpty.users ++ [adminRowNoRole envC7],
          output := stEmpty.output ++ [adminCreatedMsg] } :=
  (c7_admin_seed_fallback envC7 [] stEmpty).1 rfl rfl rfl rfl

/-- Amended claim C8: the operator command prints the connection-failure
line and returns without raising when no connection can be made; otherwise
(with fault-free tracker lookups) it succeeds, ensures the tracking table,
and its output is exactly the per-unit Applying/Skipping lines (with the
per-statement warnings), then "Migrations complete.", then the seeding
step's lines — a confirmation when it creates the account, a warning when
seeding fails, and nothing when the admin account already exists. -/
theorem c8_cli_surface (env : Env) (dir : List MigrationFile) (st : St) :
    (env.connAvailable = false →
      migrateMain env dir st
        = Except.ok { st with output := st.output ++ [connFailMsg] })
    ∧ (env.connAvailable = true → (∀ n, env.lookupFails n = false) →
      migrateMain env dir st = Except.ok (firstRun env dir st)
      ∧ (firstRun env dir st).trackingTable = true
      ∧ (firstRun env dir st).output
          = st.output ++ passTrace env (load_migrations dir) st.recorded
            ++ [completeMsg] ++ adminTrace env st.users) := by
  constructor
  · intro hc
    rw [migrateMain, if_pos hc]
  · intro hc hl
    exact ⟨migrateMain_eq_firstRun env dir st hc hl,
      firstRun_trackingTable env dir st, firstRun_output env dir st⟩

/-- Counterexample to C8 as stated: a successful run against a database
that already holds the admin row prints exactly "Migrations complete." —
neither the admin confirmation line nor any warning line (every seeder
warning starts with the letter W, the only printed line starts with M). -/
theorem c8_cli_surface_counterexample :
    (migrateMain envHonest [] stAdmin).map (fun s => s.output)
      = Except.ok [completeMsg]
    ∧ adminCreatedMsg ≠ completeMsg
    ∧ (∀ e, (adminWarnMsg e).data.head? = some 'W')
    ∧ completeMsg.data.head? = some 'M' := by
  refine ⟨by rfl, by decide, ?_, by decide⟩
  intro e
  rw [adminWarnMsg, String.data_append]
  rfl

/-- Witness for C8 (amended): both branches at concrete inputs — a run with
no connection, and a connected run over the example directory. -/
theorem c8_cli_surface_witness :
    ({ envHonest with connAvailable := false } : Env).connAvailable = false →
      migrateMain { envHonest with connAvailable := false } dirExample stEmpty
        = Except.ok { stEmpty with output := stEmpty.output ++ [connFailMsg] } :=
  (c8_cli_surface { envHonest with connAvailable := false } dirExample stEmpty).1

/-- Amended claim C9: the migration run acquires exactly one database
connection for its whole duration and never closes it — no exit path of
`migrate.main` releases the connection (`closed` counts the `close()` calls
of the run, of which the source has none). -/
theorem c9_connection_lifetime (env : Env) (dir : List MigrationFile) (st : St) :
    (env.connAvailable = true → (∀ n, env.lookupFails n = false) →
      migrateMain env dir st = Except.ok (firstRun env dir st)
      ∧ (firstRun env dir st).acquired = st.acquired + 1
      ∧ (firstRun env dir st).closed = st.closed)
    ∧ (env.connAvailable = false →
      migrateMain env dir st
        = Except.ok { st with output := st.output ++ [connFailMsg] }
      ∧ ({ st with output := st.output ++ [connFailMsg] } : St).acquired
          = st.acquired
      ∧ ({ st with output := st.output ++ [connFailMsg] } : St).closed
          = st.closed) := by
  constructor
  · intro hc hl
    exact ⟨migrateMain_eq_firstRun env dir st hc hl,
      firstRun_acquired env dir st, firstRun_closed env dir st⟩
  · intro hc
    exact ⟨by rw [migrateMain, if_pos hc], rfl, rfl⟩

/-- Counterexample to C9 as stated: a run that completes successfully ends
with one acquired connection and zero `close()` calls — the connection is
not released at the end of the run. -/
theorem c9_connection_lifetime_counterexample :
    (migrateMain envHonest [] stEmpty).map (fun s => (s.acquired, s.closed))
      = Except.ok (1, 0) := by rfl

/-- Witness for C9 (amended): the connected branch at a concrete input. -/
theorem c9_connection_lifetime_witness :
    migrateMain envHonest dirExample stEmpty
      = Except.ok (firstRun envHonest dirExample stEmpty)
    ∧ (firstRun envHonest dirExample stEmpty).acquired = stEmpty.acquired + 1
    ∧ (firstRun envHonest dirExample stEmpty).closed = stEmpty.closed :=
  (c9_connection_lifetime envHonest dirExample stEmpty).1 rfl (fun _ => rfl)

/-- Amended claim C5: per driver backend, `connect_mysql` makes at most two
direct connection attempts (the initial one and the single reconnect after
the create-database attempt) and at most one create attempt, starting with
a direct attempt whenever the import succeeds and attempting no create with
`createIfMissing` false; the pymysql sequence runs first and, only if it
yields no connection, the identical mysql.connector sequence runs once; if
both driver paths are exhausted the result is `none`, with at most four
direct and two create attempts overall and no further retries. -/
theorem countDirect_append (a b : List ConnEv) :
    countDirect (a ++ b) = countDirect a + countDirect b := by
  simp [countDirect, List.filter_append]

theorem countCreate_append (a b : List ConnEv) :
    countCreate (a ++ b) = countCreate a + countCreate b := by
  simp [countCreate, List.filter_append]

set_option maxRecDepth 4096 in
theorem tryDriver_bounds : ∀ (c : Bool) (d : Driver) (e : DriverEnv),
    countDirect (tryDriver c d e).2 ≤ 2
    ∧ countCreate (tryDriver c d e).2 ≤ 1
    ∧ (c = false → countCreate (tryDriver c d e).2 = 0)
    ∧ (e.importOk = true → (tryDriver c d e).2.head? = some (ConnEv.direct d)) := by
  decide

theorem c5_connect_retry_discipline :
    (∀ (c : Bool) (d : Driver) (e : DriverEnv),
      countDirect (tryDriver c d e).2 ≤ 2
      ∧ countCreate (tryDriver c d e).2 ≤ 1
      ∧ (c = false → countCreate (tryDriver c d e).2 = 0)
      ∧ (e.importOk = true → (tryDriver c d e).2.head? = some (ConnEv.direct d)))
    ∧ (∀ (c : Bool) (env : ConnEnv),
      countDirect (driversConnect c env).2 ≤ 4
      ∧ countCreate (driversConnect c env).2 ≤ 2
      ∧ ((tryDriver c Driver.pymysql env.pymysql).1 = none →
          (driversConnect c env).2
            = (tryDriver c Driver.pymysql env.pymysql).2
              ++ (tryDriver c Driver.connector env.connector).2)
      ∧ ((tryDriver c Driver.pymysql env.pymysql).1.isSome = true →
          driversConnect c env = tryDriver c Driver.pymysql env.pymysql)) := by
  refine ⟨tryDriver_bounds, ?_⟩
  intro c env
  have hb1 := tryDriver_bounds c Driver.pymysql env.pymysql
  have hb2 := tryDriver_bounds c Driver.connector env.connector
  rcases hp : tryDriver c Driver.pymysql env.pymysql with ⟨r1, evs1⟩
  rw [hp] at hb1
  cases r1 with
  | some conn =>
      have hd : driversConnect c env = (some conn, evs1) := by
        rw [driversConnect, hp]
      have h1 : countDirect evs1 ≤ 2 := hb1.1
      have h2 : countCreate evs1 ≤ 1 := hb1.2.1
      refine ⟨?_, ?_, ?_, ?_⟩
      · rw [hd]
        exact le_trans h1 (by omega)
      · rw [hd]
        exact le_trans h2 (by omega)
      · intro hnone
        exact absurd hnone (by simp)
      · intro _
        rw [hd]
  | none =>
      rcases hq : tryDriver c Driver.connector env.connector with ⟨r2, evs2⟩
      rw [hq] at hb2
      have hd : (driversConnect c env).2 = evs1 ++ evs2 := by
        rw [driversConnect, hp, hq]
        cases r2 <;> rfl
      have h1 : countDirect evs1 ≤ 2 := hb1.1
      have h2 : countCreate evs1 ≤ 1 := hb1.2.1
      have h3 : countDirect evs2 ≤ 2 := hb2.1
      have h4 : countCreate evs2 ≤ 1 := hb2.2.1
      refine ⟨?_, ?_, ?_, ?_⟩
      · rw [hd, countDirect_append]
        omega
      · rw [hd, countCreate_append]
        omega
      · intro _
        rw [hd]
      · intro hs
        exact absurd hs (by simp)

/-- Counterexample to C5 as stated: with the whole pymysql path failing
(its create-then-reconnect attempt included) and mysql.connector reachable,
`connect_mysql` does not fail after the single create-then-reconnect
attempt — it retries the direct connect a third time with the second driver
and returns that connection. -/
theorem c5_connect_retry_discipline_counterexample :
    connect_mysql true none envC5
      = Except.ok (some ⟨Driver.connector, false⟩,
          [ConnEv.direct Driver.pymysql, ConnEv.server Driver.pymysql,
           ConnEv.createDb Driver.pymysql, ConnEv.closeTmp Driver.pymysql,
           ConnEv.direct Driver.pymysql, ConnEv.direct Driver.connector])
    ∧ countDirect
        [ConnEv.direct Driver.pymysql, ConnEv.server Driver.pymysql,
         ConnEv.createDb Driver.pymysql, ConnEv.closeTmp Driver.pymysql,
         ConnEv.direct Driver.pymysql, ConnEv.direct Driver.connector] = 3 := by
  constructor
  · rfl
  · rfl

/-- Witness for C5 (amended): the bounds at the concrete failing driver
environment. -/
theorem c5_connect_retry_discipline_witness :
    countDirect (driversConnect true envC5).2 ≤ 4
    ∧ countCreate (driversConnect true envC5).2 ≤ 2 :=
  ⟨(c5_connect_retry_discipline.2 true envC5).1,
   (c5_connect_retry_discipline.2 true envC5).2.1⟩

/-- Amended claim C10: `connect_mysql` reads its configuration outside any
handler, so it propagates an exception whenever the `MYSQL_PORT` value does
not parse as an integer; for every configuration whose port does parse, it
returns the driver cascade's result — a connection or `None` — and never
propagates an exception, whatever the drivers do. -/
theorem c10_connect_exception_totality (c : Bool) (p : Option String) (env : ConnEnv) :
    (intParseOk (p.getD "3306") = true →
      connect_mysql c p env = Except.ok (driversConnect c env))
    ∧ (intParseOk (p.getD "3306") = false →
      connect_mysql c p env = Except.error "ValueError") := by
  constructor
  · intro h
    rw [connect_mysql, if_pos h]
  · intro h
    rw [connect_mysql, if_neg (by simp [h])]

/-- Counterexample to C10 as stated: with `MYSQL_PORT` set to `abc` the
very first line of `connect_mysql` raises `ValueError`, which propagates to
the caller. -/
theorem c10_connect_exception_totality_counterexample :
    connect_mysql true (some "abc") envC5 = Except.error "ValueError" := by
  rfl

/-- Witness for C10 (amended): a parsing port makes the call total at a
concrete input. -/
theorem c10_connect_exception_totality_witness :
    connect_mysql true (some "3307") envC5
      = Except.ok (driversConnect true envC5) :=
  (c10_connect_exception_totality true (some "3307") envC5).1 (by decide)
